import Mathlib

/-!
Shallow embedding of the remote-publish pipeline of the yoto-playlist-creator
server (src/server/routes/search.js, second router: the Yoto routes built on
yoto-nodejs-client) together with the client-side device-code polling loop
(src/unnamed/part_000, `pollYotoLogin`).

Network responses are modelled as explicit environment records; the functions
below mirror the control flow of the JavaScript source.  JavaScript string
truthiness (undefined / null / "" are falsy) is made explicit via `truthyStr`.
Log lines whose source text interpolates `JSON.stringify` of a response object
are represented by stand-in strings built from the modelled fields; no claim
depends on their exact contents.
-/

namespace Yoto

/-- JS truthiness of an optional string: `undefined`/`null` and `""` are falsy. -/
def truthyStr : Option String → Bool
  | none => false
  | some s => s != ""

/-- JS `a || b` on optional strings. -/
def jsOrStr (a b : Option String) : Option String :=
  if truthyStr a then a else b

/-- JS `a || b` where `a` is an optional number and `b` a number (0 is falsy). -/
def jsOrNat (a : Option Nat) (b : Nat) : Nat :=
  match a with
  | some n => if n != 0 then n else b
  | none => b

/-- Observable side effects of the pipeline: waits and outgoing network requests. -/
inductive Act where
  | sleep (ms : Nat)
  | slotRequest
  | bytePut
  | statusPoll
  | manifestSubmit
  deriving DecidableEq, Repr

/-- The `upload` object of the upload-URL response
(`uploadUrlData.upload?.uploadUrl`, `uploadUrlData.upload?.uploadId`). -/
structure SlotUpload where
  uploadUrl : Option String
  uploadId : Option String
  deriving DecidableEq, Repr

/-- Response of `GET /media/transcode/audio/uploadUrl`. -/
structure SlotResponse where
  ok : Bool
  status : Nat
  errorText : String
  upload : Option SlotUpload
  deriving DecidableEq, Repr

/-- `transcodeInfo.progress` of a transcode status body. -/
structure TranscodeProgress where
  phase : Option String
  percent : Option Nat
  deriving DecidableEq, Repr

/-- The fields of a transcode status object the code inspects. -/
structure TranscodeInfo where
  progress : Option TranscodeProgress
  transcodedAt : Option String
  transcodedSha256 : Option String
  key : Option String
  deriving DecidableEq, Repr

/-- A transcode status body; the code reads
`statusData.transcode || statusData.transcoded || statusData`. -/
structure StatusData where
  transcode : Option TranscodeInfo
  transcoded : Option TranscodeInfo
  selfInfo : TranscodeInfo
  deriving DecidableEq, Repr

/-- `statusData.transcode || statusData.transcoded || statusData` (objects are truthy). -/
def resolveInfo (d : StatusData) : TranscodeInfo :=
  match d.transcode with
  | some i => i
  | none =>
    match d.transcoded with
    | some i => i
    | none => d.selfInfo

/-- Response of `GET /media/upload/:uploadId/transcoded`. -/
structure StatusResponse where
  ok : Bool
  status : Nat
  data : StatusData
  deriving DecidableEq, Repr

/-- `transcodeInfo.progress?.phase === 'complete' || transcodeInfo.transcodedAt`. -/
def transcodeComplete (info : TranscodeInfo) : Bool :=
  (info.progress.bind TranscodeProgress.phase == some ("complete")) || truthyStr info.transcodedAt

/-- `transcodeInfo.transcodedSha256 || transcodeInfo.key`. -/
def transcodeKey (info : TranscodeInfo) : Option String :=
  jsOrStr info.transcodedSha256 info.key

/-- A status response that makes the poll loop break: `statusResponse.ok` and
`isComplete && key`. -/
def pollSuccess (resp : StatusResponse) : Bool :=
  resp.ok && (transcodeComplete (resolveInfo resp.data) && truthyStr (transcodeKey (resolveInfo resp.data)))

/-- Environment of one `uploadAudioToYoto` call: the remote's responses. -/
structure UploadEnv where
  slot : SlotResponse
  s3Ok : Bool
  s3Status : Nat
  statuses : Nat → StatusResponse

/-- Typed rendering of the `throw new Error(...)` sites of `uploadAudioToYoto`. -/
inductive UploadError where
  | uploadUrlFailed (status : Nat) (body : String)
  | noUploadId
  | s3Failed (status : Nat)
  | transcodeTimeout
  deriving DecidableEq, Repr

/-- The `err.message` string of each `uploadAudioToYoto` failure. -/
def UploadError.message : UploadError → String
  | UploadError.uploadUrlFailed s b => "Failed to get upload URL: " ++ toString s ++ " - " ++ b
  | UploadError.noUploadId => "No uploadId in response"
  | UploadError.s3Failed s => "Failed to upload to S3: " ++ toString s
  | UploadError.transcodeTimeout => "Transcoding timed out or failed"

/-- Output of the transcode status polling loop. -/
structure PollOut where
  acts : List Act
  logs : List String
  key : Option String

/-- The `for (let attempt = 0; attempt < 30; attempt++)` polling loop of
`uploadAudioToYoto`: each attempt waits 2000 ms, fetches the status endpoint,
and breaks as soon as a response is complete and carries a truthy key. -/
def pollLoop (env : UploadEnv) : Nat → Nat → PollOut
  | _, 0 => ⟨[], [], none⟩
  | attempt, fuel + 1 =>
    let resp := env.statuses attempt
    if resp.ok then
      let info := resolveInfo resp.data
      let statusLog := "Status: " ++ reprStr info
      if transcodeComplete info && truthyStr (transcodeKey info) then
        ⟨[Act.sleep 2000, Act.statusPoll], [statusLog, "Transcoding complete!"], transcodeKey info⟩
      else
        let progLogs :=
          match info.progress with
          | some p =>
            ["Transcode progress: " ++ p.phase.getD ("undefined") ++ " " ++ toString (p.percent.getD 0) ++ "%"]
          | none => []
        let r := pollLoop env (attempt + 1) fuel
        ⟨Act.sleep 2000 :: Act.statusPoll :: r.acts,
         statusLog :: (progLogs ++ ("Transcoding... (" ++ toString (attempt + 1) ++ "/30)") :: r.logs),
         r.key⟩
    else
      let r := pollLoop env (attempt + 1) fuel
      ⟨Act.sleep 2000 :: Act.statusPoll :: r.acts,
       ("Status check failed: " ++ toString resp.status)
         :: ("Transcoding... (" ++ toString (attempt + 1) ++ "/30)") :: r.logs,
       r.key⟩

/-- Result of one per-file upload pipeline. -/
structure UploadOutcome where
  acts : List Act
  logs : List String
  result : Except UploadError String

/-- Step 3 of the pipeline: poll for transcoding completion, 30 attempts;
`if (!transcoded?.key) throw new Error('Transcoding timed out or failed')`. -/
def runTranscodePoll (env : UploadEnv) (acts : List Act) (logs : List String) : UploadOutcome :=
  let p := pollLoop env 0 30
  match p.key with
  | some k => ⟨acts ++ p.acts, logs ++ ("Waiting for transcoding..." :: p.logs), Except.ok k⟩
  | none =>
    ⟨acts ++ p.acts, logs ++ ("Waiting for transcoding..." :: p.logs),
     Except.error UploadError.transcodeTimeout⟩

/-- `uploadAudioToYoto(filePath, token, log)` from src/server/routes/search.js:
request an upload slot, transfer bytes unless the slot response carries no
transfer URL (content already present by hash), then poll transcoding. -/
def uploadAudioToYoto (env : UploadEnv) : UploadOutcome :=
  if !env.slot.ok then
    ⟨[Act.slotRequest], ["Getting upload URL..."],
     Except.error (UploadError.uploadUrlFailed env.slot.status env.slot.errorText)⟩
  else
    let uploadUrl := env.slot.upload.bind SlotUpload.uploadUrl
    let uploadId := env.slot.upload.bind SlotUpload.uploadId
    if !truthyStr uploadId then
      ⟨[Act.slotRequest], ["Getting upload URL..."], Except.error UploadError.noUploadId⟩
    else
      if truthyStr uploadUrl then
        if !env.s3Ok then
          ⟨[Act.slotRequest, Act.bytePut], ["Getting upload URL...", "Uploading to S3..."],
           Except.error (UploadError.s3Failed env.s3Status)⟩
        else
          runTranscodePoll env [Act.slotRequest, Act.bytePut]
            ["Getting upload URL...", "Uploading to S3..."]
      else
        runTranscodePoll env [Act.slotRequest]
          ["Getting upload URL...", "File already uploaded, checking transcoding..."]

/-- Stored Yoto credentials (`getStoredCredentials` result shape). -/
structure Credentials where
  accessToken : String
  refreshToken : String
  userId : Option String
  deriving DecidableEq, Repr

/-- A playlist row as used by the publish routes. -/
structure Playlist where
  name : String
  yotoCardId : Option String
  deriving DecidableEq, Repr

/-- A song row joined with its playlist position, as used by the publish loop. -/
structure Song where
  title : String
  duration : Option Nat
  filePath : Option String
  fileOnDisk : Bool
  deriving DecidableEq, Repr

/-- An entry of the `tracks` array built by the upload loop. -/
structure TrackRecord where
  title : String
  trackNumber : Nat
  key : String
  duration : Option Nat
  format : String
  deriving DecidableEq, Repr

/-- An entry of the `errors` array built by the upload loop. -/
structure TrackError where
  title : String
  error : String
  deriving DecidableEq, Repr

/-- The SSE events written by the `/upload-playlist/:playlistId/stream` route.
`errorEv` is the wire type `error` (terminal), `uploadError` the per-file
`upload-error`; the `done` payload's `card` object is not modelled (no claim
inspects it). -/
inductive Event where
  | errorEv (error : String) (missing : Option (List String)) (errors : Option (List TrackError))
  | uploadStart (current total : Nat) (title : String)
  | logEv (message : String)
  | uploadComplete (current total : Nat) (title : String)
  | uploadError (current total : Nat) (title : String) (error : String)
  | doneEv (uploadedTracks : Nat) (errors : Option (List TrackError))
  deriving DecidableEq, Repr

/-- Terminal events: wire type `done` or `error`; `res.end()` follows each. -/
def Event.isTerminal : Event → Bool
  | Event.errorEv _ _ _ => true
  | Event.doneEv _ _ => true
  | _ => false

/-- One track inside a manifest chapter. -/
structure ChapterTrack where
  key : String
  title : String
  format : String
  trackUrl : String
  duration : Nat
  deriving DecidableEq, Repr

/-- One chapter of the submitted manifest. -/
structure Chapter where
  key : String
  title : String
  tracks : List ChapterTrack
  deriving DecidableEq, Repr

/-- The content object POSTed to `/content` (fixed fields such as
`activity`, `config` and the cover image are constants and omitted). -/
structure Manifest where
  title : String
  chapters : List Chapter
  cardId : Option String
  userId : Option String
  deriving DecidableEq, Repr

/-- `String(i).padStart(2, '0')`. -/
def padKey (i : Nat) : String :=
  let s := toString i
  if s.length < 2 then "0" ++ s else s

/-- One chapter of the manifest, built from the i-th successful track record. -/
def mkChapter (i : Nat) (t : TrackRecord) : Chapter :=
  { key := padKey i
    title := t.title
    tracks := [{ key := "01", title := t.title, format := "aac",
                 trackUrl := "yoto:#" ++ t.key, duration := t.duration.getD 0 }] }

/-- The manifest built from the successful track records, in their order;
`cardId` is included only when `playlist.yoto_card_id` is truthy. -/
def buildManifest (playlist : Playlist) (userId : Option String) (tracks : List TrackRecord) : Manifest :=
  { title := playlist.name
    chapters := tracks.enum.map fun p => mkChapter p.1 p.2
    cardId := if truthyStr playlist.yotoCardId then playlist.yotoCardId else none
    userId := userId }

/-- Response of the manifest POST to `/content`; `cardId` models
`cardData.card?.cardId`. -/
structure PersistResponse where
  ok : Bool
  status : Nat
  body : String
  cardId : Option String
  deriving DecidableEq, Repr

/-- Environment of one publish run: stored credentials, the playlist row, its
ordered songs, the per-track upload environments, and the manifest response. -/
structure PublishEnv where
  creds : Option Credentials
  playlist : Option Playlist
  songs : List Song
  uploads : Nat → UploadEnv
  persist : PersistResponse

/-- Accumulated output of the per-track upload loop. -/
structure LoopOut where
  events : List Event
  acts : List Act
  tracks : List TrackRecord
  errors : List TrackError

/-- The `for (let i = 0; i < songs.length; i++)` loop of the streaming publish
route: emit `upload-start`, run the per-file pipeline (its log lines are
forwarded as `log` events), then record a track and emit `upload-complete`, or
record an error and emit `upload-error`. -/
def uploadLoop (envs : Nat → UploadEnv) (total : Nat) : List Song → Nat → LoopOut
  | [], _ => ⟨[], [], [], []⟩
  | song :: rest, i =>
    let o := uploadAudioToYoto (envs i)
    let r := uploadLoop envs total rest (i + 1)
    match o.result with
    | Except.ok key =>
      ⟨Event.uploadStart (i + 1) total song.title ::
         (o.logs.map Event.logEv ++ Event.uploadComplete (i + 1) total song.title :: r.events),
       o.acts ++ r.acts,
       ⟨song.title, i + 1, key, song.duration, "mp3"⟩ :: r.tracks,
       r.errors⟩
    | Except.error e =>
      ⟨Event.uploadStart (i + 1) total song.title ::
         (o.logs.map Event.logEv ++ Event.uploadError (i + 1) total song.title e.message :: r.events),
       o.acts ++ r.acts,
       r.tracks,
       ⟨song.title, e.message⟩ :: r.errors⟩

/-- Result of one streaming publish run: the events written to the channel, the
outgoing network requests, the `tracks` array, the submitted manifest (present
iff the POST to `/content` was issued), the card id persisted to the playlist
row (if any), and whether the channel was closed. -/
structure PublishResult where
  events : List Event
  acts : List Act
  tracks : List TrackRecord
  manifest : Option Manifest
  savedCardId : Option String
  ended : Bool

/-- `errors.length > 0 ? errors : undefined`. -/
def maybeErrors (errors : List TrackError) : Option (List TrackError) :=
  if errors.length > 0 then some errors else none

/-- The GET `/upload-playlist/:playlistId/stream` route. -/
def publishStream (env : PublishEnv) : PublishResult :=
  match env.creds with
  | none =>
    ⟨[Event.errorEv ("Yoto not connected. Please login first.") none none], [], [], none, none, true⟩
  | some creds =>
    match env.playlist with
    | none => ⟨[Event.errorEv ("Playlist not found") none none], [], [], none, none, true⟩
    | some playlist =>
      let notDownloaded := env.songs.filter fun s => !truthyStr s.filePath || !s.fileOnDisk
      if notDownloaded.length > 0 then
        ⟨[Event.errorEv ("Some songs not downloaded") (some (notDownloaded.map Song.title)) none],
         [], [], none, none, true⟩
      else
        let r := uploadLoop env.uploads env.songs.length env.songs 0
        if r.tracks.length = 0 then
          ⟨r.events ++ [Event.errorEv ("All uploads failed") none (some r.errors)],
           r.acts, r.tracks, none, none, true⟩
        else
          let isUpdate := truthyStr playlist.yotoCardId
          let content := buildManifest playlist creds.userId r.tracks
          let preLogs :=
            [Event.logEv (if isUpdate then "Updating Yoto card..." else "Creating Yoto card..."),
             Event.logEv ("Sending: ...")]
          let acts := r.acts ++ [Act.manifestSubmit]
          if env.persist.ok then
            let newCardId := env.persist.cardId
            let doSave := truthyStr newCardId && newCardId != playlist.yotoCardId
            let saveLogs :=
              if doSave then [Event.logEv ("Saved card ID: " ++ newCardId.getD "")] else []
            ⟨r.events ++ preLogs ++ saveLogs ++ [Event.doneEv r.tracks.length (maybeErrors r.errors)],
             acts, r.tracks, some content, if doSave then newCardId else none, true⟩
          else
            ⟨r.events ++ preLogs ++
               [Event.logEv ("Error response: " ++ env.persist.body),
                Event.errorEv ("Failed to create card: " ++ toString env.persist.status ++ " - "
                  ++ env.persist.body) none none],
             acts, r.tracks, some content, none, true⟩

/-- The settings table, keyed by setting name; `none` means no row (or a NULL
value, both falsy for the code's checks). -/
def Store := String → Option String

/-- The key of the stored access token. -/
def accessTokenKey : String := "yoto_access_token"

/-- The key of the stored refresh token. -/
def refreshTokenKey : String := "yoto_refresh_token"

/-- The key of the stored remote user id. -/
def userIdKey : String := "yoto_user_id"

/-- An upsert of one settings row. -/
def storeSet (st : Store) (k v : String) : Store :=
  fun x => if x = k then some v else st x

/-- The store with no rows. -/
def emptyStore : Store := fun _ => none

/-- `getStoredCredentials()`: both token values must be truthy, else `null`. -/
def getStoredCredentials (st : Store) : Option Credentials :=
  let accessToken := st accessTokenKey
  let refreshToken := st refreshTokenKey
  let userId := st userIdKey
  if !truthyStr accessToken || !truthyStr refreshToken then none
  else some { accessToken := accessToken.getD "", refreshToken := refreshToken.getD "",
              userId := userId }

/-- `saveCredentials({accessToken, refreshToken, userId})`: upsert both tokens,
and the user id only when truthy. -/
def saveCredentials (st : Store) (accessToken refreshToken : String) (userId : Option String) : Store :=
  let st1 := storeSet st accessTokenKey accessToken
  let st2 := storeSet st1 refreshTokenKey refreshToken
  if truthyStr userId then storeSet st2 userIdKey (userId.getD "") else st2

/-- `clearCredentials()`: `DELETE FROM settings WHERE key LIKE 'yoto_%'`.
The `LIKE 'yoto_%'` pattern is modelled as the character prefix `yoto_`
(sufficient for the three `yoto_`-prefixed keys the code writes). -/
def clearCredentials (st : Store) : Store :=
  fun k => if ("yoto_").data.isPrefixOf k.data then none else st k

/-- The operations that mutate the credential store. -/
inductive CredOp where
  | save (accessToken refreshToken : String) (userId : Option String)
  | clear
  deriving DecidableEq, Repr

/-- Apply one credential-store operation. -/
def applyCredOp (st : Store) : CredOp → Store
  | CredOp.save a r u => saveCredentials st a r u
  | CredOp.clear => clearCredentials st

/-- Run a sequence of credential-store operations. -/
def runCredOps (st : Store) (ops : List CredOp) : Store :=
  ops.foldl applyCredOp st

/-- Both token rows present, or neither. -/
def bothOrNeither (st : Store) : Prop :=
  (st accessTokenKey).isSome ↔ (st refreshTokenKey).isSome

/-- An in-memory device-code session (`deviceCodeSessions` map entry);
`interval` is in milliseconds. -/
structure DeviceSession where
  createdAt : Nat
  expiresIn : Nat
  interval : Nat
  deriving DecidableEq, Repr

/-- The in-memory device-code session table, keyed by device code. -/
def Sessions := String → Option DeviceSession

/-- `deviceCodeSessions.delete(code)`. -/
def sessionsDelete (ss : Sessions) (code : String) : Sessions :=
  fun c => if c = code then none else ss c

/-- `deviceCodeSessions.set(code, s)` / mutation of a stored session. -/
def sessionsSet (ss : Sessions) (code : String) (s : DeviceSession) : Sessions :=
  fun c => if c = code then some s else ss c

/-- Outcome of `YotoClient.pollForDeviceToken` for one poll request:
a token pair, `pending`, `slow_down` with an interval in milliseconds, or a
thrown error with its description. -/
inductive PollRemote where
  | success (accessToken refreshToken : String)
  | pending
  | slowDown (interval : Nat)
  | failure (description : String)
  deriving DecidableEq, Repr

/-- The JSON body the `/auth/poll` route answers with. -/
inductive PollResponse where
  | badRequest (error : String)
  | okSuccess
  | okPending (interval : Option Nat)
  | authFailed (details : String)
  deriving DecidableEq, Repr

/-- Result of one `/auth/poll` request: the response, the new session table and
settings store, and the `currentInterval` passed to the remote token endpoint
(`none` when no remote request was issued). -/
structure PollResult where
  response : PollResponse
  sessions : Sessions
  store : Store
  remoteContacted : Option Nat

/-- The POST `/auth/poll` route.  `tokenUserId` models the `payload.sub`
extracted from the access token's claims segment (`none` on decode failure).
On success the credentials are saved and the session removed; on `slow_down`
the stored session interval is overwritten with the advertised one and the
response relays `result.interval / 1000`; on a thrown poll error the session is
removed and the remote description surfaced. -/
def pollRoute (sessions : Sessions) (store : Store) (deviceCode : Option String)
    (remote : PollRemote) (tokenUserId : Option String) : PollResult :=
  if !truthyStr deviceCode then
    ⟨PollResponse.badRequest ("deviceCode is required"), sessions, store, none⟩
  else
    let code := deviceCode.getD ""
    match sessions code with
    | none =>
      ⟨PollResponse.badRequest ("Invalid or expired device code session"), sessions, store, none⟩
    | some session =>
      match remote with
      | PollRemote.success a r =>
        ⟨PollResponse.okSuccess, sessionsDelete sessions code,
         saveCredentials store a r tokenUserId, some session.interval⟩
      | PollRemote.pending =>
        ⟨PollResponse.okPending none, sessions, store, some session.interval⟩
      | PollRemote.slowDown iv =>
        ⟨PollResponse.okPending (some (iv / 1000)),
         sessionsSet sessions code { session with interval := iv }, store, some session.interval⟩
      | PollRemote.failure d =>
        ⟨PollResponse.authFailed d, sessionsDelete sessions code, store,
         some session.interval⟩

/-- A `/auth/poll` response body as seen by the browser poll loop. -/
inductive ClientPollData where
  | success
  | pending (interval : Option Nat)
  | errorData (details : String)
  deriving DecidableEq, Repr

/-- The waits (in milliseconds) scheduled by `pollYotoLogin` in
src/unnamed/part_000: on a `pending` response the next poll is scheduled after
`(data.interval || interval) * 1000`, where `interval` is the originally issued
value captured by the closure; `success` and error responses stop polling. -/
def clientWaits (interval : Nat) : List ClientPollData → List Nat
  | [] => []
  | ClientPollData.success :: _ => []
  | ClientPollData.pending iv :: rest => jsOrNat iv interval * 1000 :: clientWaits interval rest
  | ClientPollData.errorData _ :: _ => []

/-- The server poll response relayed to the client poll loop. -/
def toClientData : PollResponse → ClientPollData
  | PollResponse.badRequest e => ClientPollData.errorData e
  | PollResponse.okSuccess => ClientPollData.success
  | PollResponse.okPending iv => ClientPollData.pending iv
  | PollResponse.authFailed d => ClientPollData.errorData d

/-- A slot response with an `uploadId` but no transfer URL (content already
present by hash). -/
def sampleOkSlot : SlotResponse :=
  ⟨true, 200, "", some ⟨none, some ("uid")⟩⟩

/-- A transcode info reporting completion with asset key `k`. -/
def sampleDoneInfo (k : String) : TranscodeInfo :=
  ⟨some ⟨some ("complete"), some 100⟩, none, some k, none⟩

/-- A transcode info with no usable field. -/
def blankInfo : TranscodeInfo := ⟨none, none, none, none⟩

/-- A status response reporting completion with asset key `k`. -/
def sampleOkStatus (k : String) : StatusResponse :=
  ⟨true, 200, ⟨some (sampleDoneInfo k), none, blankInfo⟩⟩

/-- An upload environment whose pipeline succeeds with key `k` and skips the
byte transfer (the slot response has no transfer URL). -/
def dedupUploadEnv (k : String) : UploadEnv :=
  ⟨sampleOkSlot, true, 200, fun _ => sampleOkStatus k⟩

/-- An upload environment whose slot request fails with a 500. -/
def failSlotEnv : UploadEnv :=
  ⟨⟨false, 500, "boom", none⟩, true, 200, fun _ => sampleOkStatus ("x")⟩

/-- An upload environment whose status endpoint never reports completion. -/
def neverDoneEnv : UploadEnv :=
  ⟨sampleOkSlot, true, 200, fun _ => ⟨true, 200, ⟨none, none, blankInfo⟩⟩⟩

/-- Sample stored credentials. -/
def sampleCreds : Credentials := ⟨"tok", "ref", some ("user")⟩

/-- Sample playlist row with no previously stored card id. -/
def samplePlaylist : Playlist := ⟨"My Playlist", none⟩

/-- A downloaded song with the given title. -/
def sampleSong (t : String) : Song := ⟨t, some 100, some ("/x.mp3"), true⟩

/-- Upload environments where track 2 (index 1) fails and the others succeed. -/
def midFailUploads : Nat → UploadEnv :=
  fun i => if i = 1 then failSlotEnv else dedupUploadEnv ("k" ++ toString i)

/-- A successful manifest POST response. -/
def samplePersist : PersistResponse := ⟨true, 200, "", some ("card1")⟩

/-- A 3-track publish environment where track 2's upload fails. -/
def midFailEnv : PublishEnv :=
  ⟨some sampleCreds, some samplePlaylist,
   [sampleSong ("A"), sampleSong ("B"), sampleSong ("C")],
   midFailUploads, samplePersist⟩

/-- Number of occurrences of one act in a trace. -/
def countAct (a : Act) : List Act → Nat
  | [] => 0
  | b :: l => (if b = a then 1 else 0) + countAct a l

/-- The `trackNumber` column of the `tracks` array, in manifest order. -/
def PublishResult.trackNumbers (r : PublishResult) : List Nat :=
  r.tracks.map TrackRecord.trackNumber

/-- A device-code session issued with a 5000 ms poll interval. -/
def sampleSession : DeviceSession := ⟨0, 300, 5000⟩

/-- A session table holding only the device code `dc`. -/
def sampleSessions : Sessions :=
  fun c => if c = "dc" then some sampleSession else none

/-- A settings store holding an access token but no refresh token. -/
def partialStore : Store := storeSet emptyStore accessTokenKey ("tok")

/-- The session table with no live sessions. -/
def emptySessions : Sessions := fun _ => none

/-- A 3-track publish environment where every upload succeeds. -/
def allOkEnv : PublishEnv :=
  ⟨some sampleCreds, some samplePlaylist,
   [sampleSong ("A"), sampleSong ("B"), sampleSong ("C")],
   fun i => dedupUploadEnv ("k" ++ toString i), samplePersist⟩

/-- A 1-track publish environment whose track's content is already present by
hash (no transfer URL in the slot response). -/
def dedupPublishEnv : PublishEnv :=
  ⟨some sampleCreds, some samplePlaylist, [sampleSong ("A")],
   fun _ => dedupUploadEnv ("kA"), samplePersist⟩

/-- A 2-track publish environment where every upload fails. -/
def allFailEnv : PublishEnv :=
  ⟨some sampleCreds, some samplePlaylist, [sampleSong ("A"), sampleSong ("B")],
   fun _ => failSlotEnv, samplePersist⟩

lemma countAct_append (a : Act) (l1 l2 : List Act) :
    countAct a (l1 ++ l2) = countAct a l1 + countAct a l2 := by
  induction l1 with
  | nil => simp [countAct]
  | cons b l ih => simp [countAct, ih]; omega

lemma pollLoop_never (env : UploadEnv) (h : ∀ a, pollSuccess (env.statuses a) = false) :
    ∀ (f a : Nat), (pollLoop env a f).key = none ∧
      countAct Act.statusPoll (pollLoop env a f).acts = f ∧
      countAct (Act.sleep 2000) (pollLoop env a f).acts = f := by
  intro f
  induction f with
  | zero => intro a; simp [pollLoop, countAct]
  | succ f ih =>
    intro a
    obtain ⟨hk, hc1, hc2⟩ := ih (a + 1)
    rcases Bool.eq_false_or_eq_true (env.statuses a).ok with hok | hok
    · have hfail : (transcodeComplete (resolveInfo (env.statuses a).data) &&
          truthyStr (transcodeKey (resolveInfo (env.statuses a).data))) = false := by
        have hs := h a
        unfold pollSuccess at hs
        rw [hok] at hs
        simpa using hs
      refine ⟨?_, ?_, ?_⟩ <;> simp [pollLoop, hok, hfail, countAct, hk, hc1, hc2] <;> omega
    · refine ⟨?_, ?_, ?_⟩ <;> simp [pollLoop, hok, countAct, hk, hc1, hc2] <;> omega

lemma pollLoop_statusPoll_le (env : UploadEnv) :
    ∀ (f a : Nat), countAct Act.statusPoll (pollLoop env a f).acts ≤ f := by
  intro f
  induction f with
  | zero => intro a; simp [pollLoop, countAct]
  | succ f ih =>
    intro a
    have hr := ih (a + 1)
    rcases Bool.eq_false_or_eq_true (env.statuses a).ok with hok | hok
    · rcases Bool.eq_false_or_eq_true (transcodeComplete (resolveInfo (env.statuses a).data) &&
          truthyStr (transcodeKey (resolveInfo (env.statuses a).data))) with hc | hc <;>
        simp [pollLoop, hok, hc, countAct] <;> omega
    · simp [pollLoop, hok, countAct] <;> omega

lemma pollLoop_no_submit (env : UploadEnv) :
    ∀ (f a : Nat), Act.manifestSubmit ∉ (pollLoop env a f).acts := by
  intro f
  induction f with
  | zero => intro a; simp [pollLoop]
  | succ f ih =>
    intro a
    have hr := ih (a + 1)
    rcases Bool.eq_false_or_eq_true (env.statuses a).ok with hok | hok
    · rcases Bool.eq_false_or_eq_true (transcodeComplete (resolveInfo (env.statuses a).data) &&
          truthyStr (transcodeKey (resolveInfo (env.statuses a).data))) with hc | hc <;>
        simp [pollLoop, hok, hc, hr]
    · simp [pollLoop, hok, hr]

lemma pollLoop_no_bytePut (env : UploadEnv) :
    ∀ (f a : Nat), Act.bytePut ∉ (pollLoop env a f).acts := by
  intro f
  induction f with
  | zero => intro a; simp [pollLoop]
  | succ f ih =>
    intro a
    have hr := ih (a + 1)
    rcases Bool.eq_false_or_eq_true (env.statuses a).ok with hok | hok
    · rcases Bool.eq_false_or_eq_true (transcodeComplete (resolveInfo (env.statuses a).data) &&
          truthyStr (transcodeKey (resolveInfo (env.statuses a).data))) with hc | hc <;>
        simp [pollLoop, hok, hc, hr]
    · simp [pollLoop, hok, hr]

lemma pollLoop_statusPoll_mem (env : UploadEnv) (f a : Nat) (hf : 0 < f) :
    Act.statusPoll ∈ (pollLoop env a f).acts := by
  cases f with
  | zero => omega
  | succ f =>
    rcases Bool.eq_false_or_eq_true (env.statuses a).ok with hok | hok
    · rcases Bool.eq_false_or_eq_true (transcodeComplete (resolveInfo (env.statuses a).data) &&
          truthyStr (transcodeKey (resolveInfo (env.statuses a).data))) with hc | hc <;>
        simp [pollLoop, hok, hc]
    · simp [pollLoop, hok]

lemma filter_notDownloaded_nil (songs : List Song)
    (hd : ∀ s ∈ songs, truthyStr s.filePath = true ∧ s.fileOnDisk = true) :
    (songs.filter fun s => !truthyStr s.filePath || !s.fileOnDisk) = [] := by
  rw [List.filter_eq_nil_iff]
  intro s hs
  have hh := hd s hs
  simp [hh.1, hh.2]

lemma runTranscodePoll_acts (env : UploadEnv) (acts : List Act) (logs : List String) :
    (runTranscodePoll env acts logs).acts = acts ++ (pollLoop env 0 30).acts := by
  unfold runTranscodePoll
  cases hk : (pollLoop env 0 30).key <;> simp [hk]

lemma runTranscodePoll_result (env : UploadEnv) (acts : List Act) (logs : List String) :
    (runTranscodePoll env acts logs).result =
      (match (pollLoop env 0 30).key with
       | some k => Except.ok k
       | none => Except.error UploadError.transcodeTimeout) := by
  unfold runTranscodePoll
  cases hk : (pollLoop env 0 30).key <;> simp [hk]

lemma upload_no_submit (env : UploadEnv) :
    Act.manifestSubmit ∉ (uploadAudioToYoto env).acts := by
  have hp := pollLoop_no_submit env 30 0
  unfold uploadAudioToYoto
  rcases Bool.eq_false_or_eq_true env.slot.ok with hok | hok <;>
    rcases Bool.eq_false_or_eq_true (truthyStr (env.slot.upload.bind SlotUpload.uploadId)) with hid | hid <;>
      rcases Bool.eq_false_or_eq_true (truthyStr (env.slot.upload.bind SlotUpload.uploadUrl)) with hurl | hurl <;>
        rcases Bool.eq_false_or_eq_true env.s3Ok with hs3 | hs3 <;>
          simp [hok, hid, hurl, hs3, runTranscodePoll_acts, hp]

lemma upload_statusPoll_le (env : UploadEnv) :
    countAct Act.statusPoll (uploadAudioToYoto env).acts ≤ 30 := by
  have hp := pollLoop_statusPoll_le env 30 0
  unfold uploadAudioToYoto
  rcases Bool.eq_false_or_eq_true env.slot.ok with hok | hok <;>
    rcases Bool.eq_false_or_eq_true (truthyStr (env.slot.upload.bind SlotUpload.uploadId)) with hid | hid <;>
      rcases Bool.eq_false_or_eq_true (truthyStr (env.slot.upload.bind SlotUpload.uploadUrl)) with hurl | hurl <;>
        rcases Bool.eq_false_or_eq_true env.s3Ok with hs3 | hs3 <;>
          simp [hok, hid, hurl, hs3, runTranscodePoll_acts, countAct_append, countAct] <;> omega

lemma uploadLoop_events_nonterminal (envs : Nat → UploadEnv) (total : Nat) :
    ∀ (songs : List Song) (i : Nat) (e : Event),
      e ∈ (uploadLoop envs total songs i).events → e.isTerminal = false := by
  intro songs
  induction songs with
  | nil => intro i e he; simp [uploadLoop] at he
  | cons song rest ih =>
    intro i e he
    cases hres : (uploadAudioToYoto (envs i)).result with
    | ok key =>
      simp only [uploadLoop, hres] at he
      simp only [List.mem_cons, List.mem_append, List.mem_map] at he
      rcases he with rfl | he
      · rfl
      rcases he with ⟨msg, hmsg, rfl⟩ | he
      · rfl
      rcases he with rfl | he
      · rfl
      · exact ih (i + 1) e he
    | error err =>
      simp only [uploadLoop, hres] at he
      simp only [List.mem_cons, List.mem_append, List.mem_map] at he
      rcases he with rfl | he
      · rfl
      rcases he with ⟨msg, hmsg, rfl⟩ | he
      · rfl
      rcases he with rfl | he
      · rfl
      · exact ih (i + 1) e he

lemma uploadLoop_no_submit (envs : Nat → UploadEnv) (total : Nat) :
    ∀ (songs : List Song) (i : Nat),
      Act.manifestSubmit ∉ (uploadLoop envs total songs i).acts := by
  intro songs
  induction songs with
  | nil => intro i; simp [uploadLoop]
  | cons song rest ih =>
    intro i
    have hu := upload_no_submit (envs i)
    have hr := ih (i + 1)
    cases hres : (uploadAudioToYoto (envs i)).result <;>
      simp [uploadLoop, hres, List.mem_append, hu, hr]

lemma uploadLoop_allFail (envs : Nat → UploadEnv) (total : Nat) :
    ∀ (songs : List Song) (i : Nat),
      (∀ j, j < songs.length → ∃ e, (uploadAudioToYoto (envs (i + j))).result = Except.error e) →
      (uploadLoop envs total songs i).tracks = [] ∧
      (uploadLoop envs total songs i).errors.map TrackError.title = songs.map Song.title := by
  intro songs
  induction songs with
  | nil => intro i _; simp [uploadLoop]
  | cons song rest ih =>
    intro i h
    obtain ⟨e, he⟩ := h 0 (by simp)
    rw [Nat.add_zero] at he
    have hrest := ih (i + 1) (fun j hj => by
      have hh := h (j + 1) (by simpa using Nat.succ_lt_succ hj)
      rwa [show i + (j + 1) = i + 1 + j by omega] at hh)
    simp [uploadLoop, he, hrest.1, hrest.2]

lemma uploadLoop_trackNumbers (envs : Nat → UploadEnv) (total : Nat) :
    ∀ (songs : List Song) (i : Nat),
      List.Chain' (· < ·) ((uploadLoop envs total songs i).tracks.map TrackRecord.trackNumber) ∧
      ∀ n ∈ (uploadLoop envs total songs i).tracks.map TrackRecord.trackNumber,
        i < n ∧ n ≤ i + songs.length := by
  intro songs
  induction songs with
  | nil => intro i; simp [uploadLoop]
  | cons song rest ih =>
    intro i
    obtain ⟨hchain, hbound⟩ := ih (i + 1)
    cases hres : (uploadAudioToYoto (envs i)).result with
    | error err =>
      refine ⟨by simpa [uploadLoop, hres] using hchain, ?_⟩
      intro n hn
      simp only [uploadLoop, hres] at hn
      have hb := hbound n hn
      simp only [List.length_cons]
      omega
    | ok key =>
      constructor
      · simp only [uploadLoop, hres, List.map_cons]
        refine List.chain'_cons'.mpr ⟨?_, hchain⟩
        intro y hy
        have hb := hbound y (List.mem_of_mem_head? hy)
        omega
      · intro n hn
        simp only [uploadLoop, hres, List.map_cons, List.mem_cons] at hn
        simp only [List.length_cons]
        rcases hn with rfl | hn
        · omega
        · have hb := hbound n hn
          omega

lemma uploadLoop_all_ok (envs : Nat → UploadEnv) (total : Nat) :
    ∀ (songs : List Song) (i : Nat),
      (∀ j, j < songs.length → ∃ k, (uploadAudioToYoto (envs (i + j))).result = Except.ok k) →
      (uploadLoop envs total songs i).tracks.map TrackRecord.trackNumber
        = List.range' (i + 1) songs.length := by
  intro songs
  induction songs with
  | nil => intro i _; simp [uploadLoop]
  | cons song rest ih =>
    intro i h
    obtain ⟨k, hk⟩ := h 0 (by simp)
    rw [Nat.add_zero] at hk
    have hrest := ih (i + 1) (fun j hj => by
      have hh := h (j + 1) (by simpa using Nat.succ_lt_succ hj)
      rwa [show i + (j + 1) = i + 1 + j by omega] at hh)
    simp [uploadLoop, hk, hrest, List.range'_succ]

lemma uploadLoop_complete_mem (envs : Nat → UploadEnv) (total : Nat) :
    ∀ (songs : List Song) (i j : Nat) (hj : j < songs.length) (k : String),
      (uploadAudioToYoto (envs (i + j))).result = Except.ok k →
      Event.uploadComplete (i + j + 1) total (songs.get ⟨j, hj⟩).title
        ∈ (uploadLoop envs total songs i).events := by
  intro songs
  induction songs with
  | nil => intro i j hj; simp at hj
  | cons song rest ih =>
    intro i j hj k hk
    cases j with
    | zero =>
      rw [Nat.add_zero] at hk
      simp [uploadLoop, hk]
    | succ j' =>
      have hj' : j' < rest.length := by simpa using hj
      have hmem := ih (i + 1) j' hj' k (by rwa [show i + 1 + j' = i + (j' + 1) by omega] )
      have harith : i + 1 + j' + 1 = i + (j' + 1) + 1 := by omega
      rw [harith] at hmem
      cases hres : (uploadAudioToYoto (envs i)).result <;>
        simp [uploadLoop, hres, List.mem_append] <;>
          simpa using hmem

lemma access_ne_refresh : (accessTokenKey = refreshTokenKey) = False := eq_false (by decide)

lemma access_ne_user : (accessTokenKey = userIdKey) = False := eq_false (by decide)

lemma refresh_ne_user : (refreshTokenKey = userIdKey) = False := eq_false (by decide)

lemma saveCredentials_access (st : Store) (a r : String) (u : Option String) :
    saveCredentials st a r u accessTokenKey = some a := by
  unfold saveCredentials storeSet
  rcases Bool.eq_false_or_eq_true (truthyStr u) with hu | hu <;>
    simp [hu, access_ne_refresh, access_ne_user]

lemma saveCredentials_refresh (st : Store) (a r : String) (u : Option String) :
    saveCredentials st a r u refreshTokenKey = some r := by
  unfold saveCredentials storeSet
  rcases Bool.eq_false_or_eq_true (truthyStr u) with hu | hu <;>
    simp [hu, refresh_ne_user]

lemma clearCredentials_yoto (st : Store) (k : String)
    (h : ("yoto_").data.isPrefixOf k.data = true) :
    clearCredentials st k = none := by
  unfold clearCredentials
  rw [if_pos h]

lemma bothOrNeither_run (ops : List CredOp) :
    ∀ st : Store, bothOrNeither st → bothOrNeither (runCredOps st ops) := by
  induction ops with
  | nil => intro st h; exact h
  | cons op rest ih =>
    intro st h
    show bothOrNeither (runCredOps (applyCredOp st op) rest)
    cases op with
    | save a r u =>
      refine ih _ ?_
      unfold bothOrNeither
      rw [show applyCredOp st (CredOp.save a r u) = saveCredentials st a r u from rfl,
        saveCredentials_access, saveCredentials_refresh]
      simp
    | clear =>
      refine ih _ ?_
      unfold bothOrNeither
      rw [show applyCredOp st CredOp.clear = clearCredentials st from rfl,
        clearCredentials_yoto st accessTokenKey (by decide),
        clearCredentials_yoto st refreshTokenKey (by decide)]

/-- C8: in every reachable state of the credential store the access and refresh
token rows are both present or both absent; `saveCredentials` writes both,
`clearCredentials` removes both, and `getStoredCredentials` treats a store in
which either token is missing (or empty) as no credentials. -/
theorem C8_credential_store_invariant :
    (∀ ops : List CredOp, bothOrNeither (runCredOps emptyStore ops)) ∧
    (∀ (st : Store) (a r : String) (u : Option String),
      saveCredentials st a r u accessTokenKey = some a ∧
      saveCredentials st a r u refreshTokenKey = some r) ∧
    (∀ st : Store, clearCredentials st accessTokenKey = none ∧
      clearCredentials st refreshTokenKey = none) ∧
    (∀ st : Store,
      truthyStr (st accessTokenKey) = false ∨ truthyStr (st refreshTokenKey) = false →
      getStoredCredentials st = none) := by
  refine ⟨?_, ?_, ?_, ?_⟩
  · intro ops
    exact bothOrNeither_run ops emptyStore (by unfold bothOrNeither emptyStore; simp)
  · intro st a r u
    exact ⟨saveCredentials_access st a r u, saveCredentials_refresh st a r u⟩
  · intro st
    exact ⟨clearCredentials_yoto st accessTokenKey (by decide),
      clearCredentials_yoto st refreshTokenKey (by decide)⟩
  · intro st h
    unfold getStoredCredentials
    rcases h with h | h <;> simp [h]

/-- C8 witness: a store holding only an access token reads as no credentials. -/
theorem C8_credential_store_invariant_witness :
    getStoredCredentials partialStore = none :=
  C8_credential_store_invariant.2.2.2 partialStore (Or.inr rfl)

/-- C9: after logout has cleared the credentials, a publish run emits only the
terminal not-authenticated error event, closes the channel, and issues no
network request at all (no upload slot request, no byte transfer, no status
poll, no manifest submission). -/
theorem C9_publish_after_logout (st : Store) (playlist : Option Playlist) (songs : List Song)
    (uploads : Nat → UploadEnv) (persist : PersistResponse) :
    (publishStream ⟨getStoredCredentials (clearCredentials st), playlist, songs, uploads, persist⟩).events
        = [Event.errorEv ("Yoto not connected. Please login first.") none none] ∧
    (publishStream ⟨getStoredCredentials (clearCredentials st), playlist, songs, uploads, persist⟩).acts
        = [] ∧
    (publishStream ⟨getStoredCredentials (clearCredentials st), playlist, songs, uploads, persist⟩).manifest
        = none ∧
    (publishStream ⟨getStoredCredentials (clearCredentials st), playlist, songs, uploads, persist⟩).ended
        = true := by
  have hcreds : getStoredCredentials (clearCredentials st) = none := by
    unfold getStoredCredentials
    rw [clearCredentials_yoto st accessTokenKey (by decide)]
    simp [truthyStr]
  refine ⟨?_, ?_, ?_, ?_⟩ <;> simp [publishStream, hcreds]

/-- C10: polling a device code with no live session answers the invalid-session
error without contacting the remote authorization server, and a poll after a
successful or terminally failed poll of the same code does the same (the
session has been deleted). -/
theorem C10_invalid_session_poll :
    (∀ (sessions : Sessions) (store : Store) (code : String) (remote : PollRemote)
        (uid : Option String), code ≠ "" → sessions code = none →
      (pollRoute sessions store (some code) remote uid).response
          = PollResponse.badRequest ("Invalid or expired device code session") ∧
      (pollRoute sessions store (some code) remote uid).remoteContacted = none) ∧
    (∀ (sessions : Sessions) (store store2 : Store) (code : String) (sess : DeviceSession)
        (a r : String) (uid uid2 : Option String) (remote2 : PollRemote),
      code ≠ "" → sessions code = some sess →
      (pollRoute (pollRoute sessions store (some code) (PollRemote.success a r) uid).sessions
          store2 (some code) remote2 uid2).response
          = PollResponse.badRequest ("Invalid or expired device code session") ∧
      (pollRoute (pollRoute sessions store (some code) (PollRemote.success a r) uid).sessions
          store2 (some code) remote2 uid2).remoteContacted = none) ∧
    (∀ (sessions : Sessions) (store store2 : Store) (code : String) (sess : DeviceSession)
        (d : String) (uid uid2 : Option String) (remote2 : PollRemote),
      code ≠ "" → sessions code = some sess →
      (pollRoute (pollRoute sessions store (some code) (PollRemote.failure d) uid).sessions
          store2 (some code) remote2 uid2).response
          = PollResponse.badRequest ("Invalid or expired device code session") ∧
      (pollRoute (pollRoute sessions store (some code) (PollRemote.failure d) uid).sessions
          store2 (some code) remote2 uid2).remoteContacted = none) := by
  have base : ∀ (sessions : Sessions) (store : Store) (code : String) (remote : PollRemote)
      (uid : Option String), code ≠ "" → sessions code = none →
      (pollRoute sessions store (some code) remote uid).response
          = PollResponse.badRequest ("Invalid or expired device code session") ∧
      (pollRoute sessions store (some code) remote uid).remoteContacted = none := by
    intro sessions store code remote uid hc hn
    have ht : truthyStr (some code) = true := by simp [truthyStr, hc]
    constructor <;> simp [pollRoute, ht, hn]
  refine ⟨base, ?_, ?_⟩
  · intro sessions store store2 code sess a r uid uid2 remote2 hc hs
    have ht : truthyStr (some code) = true := by simp [truthyStr, hc]
    have hdel : (pollRoute sessions store (some code) (PollRemote.success a r) uid).sessions code
        = none := by
      simp [pollRoute, ht, hs, sessionsDelete]
    exact base _ store2 code remote2 uid2 hc hdel
  · intro sessions store store2 code sess d uid uid2 remote2 hc hs
    have ht : truthyStr (some code) = true := by simp [truthyStr, hc]
    have hdel : (pollRoute sessions store (some code) (PollRemote.failure d) uid).sessions code
        = none := by
      simp [pollRoute, ht, hs, sessionsDelete]
    exact base _ store2 code remote2 uid2 hc hdel

/-- C10 witness: an unknown device code polls to the invalid-session error with
no remote contact, and so does a second poll of a code that just succeeded. -/
theorem C10_invalid_session_poll_witness :
    (pollRoute emptySessions emptyStore (some ("dc")) PollRemote.pending none).response
        = PollResponse.badRequest ("Invalid or expired device code session") ∧
    (pollRoute (pollRoute sampleSessions emptyStore (some ("dc"))
          (PollRemote.success ("t") ("r")) none).sessions
        emptyStore (some ("dc")) PollRemote.pending none).remoteContacted = none := by
  refine ⟨(C10_invalid_session_poll.1 emptySessions emptyStore ("dc") PollRemote.pending none
      (by decide) rfl).1,
    (C10_invalid_session_poll.2.1 sampleSessions emptyStore emptyStore ("dc") sampleSession
      ("t") ("r") none none PollRemote.pending (by decide) rfl).2⟩

/-- C6 counterexample: a session issued with a 5 s interval receives
`slow_down` advertising 10 s; the stored interval is updated and the wait right
after the `slow_down` response is 10000 ms, but the wait scheduled after the
following plain `pending` response (which carries no interval field) falls back
to the original 5000 ms — so not every subsequent poll wait uses the advertised
interval. -/
theorem C6_counterexample :
    toClientData (pollRoute sampleSessions emptyStore (some ("dc"))
        (PollRemote.slowDown 10000) none).response = ClientPollData.pending (some 10) ∧
    (pollRoute sampleSessions emptyStore (some ("dc"))
        (PollRemote.slowDown 10000) none).sessions ("dc") = some ⟨0, 300, 10000⟩ ∧
    toClientData (pollRoute (pollRoute sampleSessions emptyStore (some ("dc"))
          (PollRemote.slowDown 10000) none).sessions
        emptyStore (some ("dc")) PollRemote.pending none).response = ClientPollData.pending none ∧
    clientWaits 5 [ClientPollData.pending (some 10), ClientPollData.pending none]
        = [10000, 5000] ∧
    [10000, 5000] ≠ [10000, 10000] := by
  refine ⟨rfl, rfl, rfl, rfl, by decide⟩

/-- C6 amended: on `slow_down` the stored session interval is replaced by the
advertised value, the response relays the advertised interval (in seconds), and
every subsequent poll request for that session passes the advertised interval
to the token endpoint; on the client, the wait immediately following a
`pending` response that carries a nonzero interval uses that interval, but a
wait following a `pending` response without an interval reverts to the
originally issued interval. -/
theorem C6_slow_down_interval (sessions : Sessions) (store store2 : Store) (code : String)
    (sess : DeviceSession) (iv : Nat) (uid uid2 : Option String) (remote2 : PollRemote)
    (hc : code ≠ "") (hs : sessions code = some sess) :
    (pollRoute sessions store (some code) (PollRemote.slowDown iv) uid).sessions code
        = some { sess with interval := iv } ∧
    (pollRoute sessions store (some code) (PollRemote.slowDown iv) uid).response
        = PollResponse.okPending (some (iv / 1000)) ∧
    (pollRoute (pollRoute sessions store (some code) (PollRemote.slowDown iv) uid).sessions
        store2 (some code) remote2 uid2).remoteContacted = some iv ∧
    (∀ (orig adv : Nat) (rest : List ClientPollData), adv ≠ 0 →
      clientWaits orig (ClientPollData.pending (some adv) :: rest)
          = adv * 1000 :: clientWaits orig rest) ∧
    (∀ (orig : Nat) (rest : List ClientPollData),
      clientWaits orig (ClientPollData.pending none :: rest)
          = orig * 1000 :: clientWaits orig rest) := by
  have ht : truthyStr (some code) = true := by simp [truthyStr, hc]
  have hupd : (pollRoute sessions store (some code) (PollRemote.slowDown iv) uid).sessions code
      = some { sess with interval := iv } := by
    simp [pollRoute, ht, hs, sessionsSet]
  refine ⟨hupd, ?_, ?_, ?_, ?_⟩
  · simp [pollRoute, ht, hs]
  · have hgen : ∀ ss : Sessions, ss code = some { sess with interval := iv } →
        (pollRoute ss store2 (some code) remote2 uid2).remoteContacted = some iv := by
      intro ss hss
      cases remote2 <;> simp [pollRoute, ht, hss]
    exact hgen _ hupd
  · intro orig adv rest hadv
    simp [clientWaits, jsOrNat, hadv]
  · intro orig rest
    simp [clientWaits, jsOrNat]

/-- C6 amended witness: for the sample session, `slow_down 10000` stores a
10000 ms interval and the next poll request passes 10000 ms to the remote. -/
theorem C6_slow_down_interval_witness :
    (pollRoute sampleSessions emptyStore (some ("dc"))
        (PollRemote.slowDown 10000) none).sessions ("dc") = some ⟨0, 300, 10000⟩ ∧
    (pollRoute (pollRoute sampleSessions emptyStore (some ("dc"))
          (PollRemote.slowDown 10000) none).sessions
        emptyStore (some ("dc")) PollRemote.pending none).remoteContacted = some 10000 := by
  have h := C6_slow_down_interval sampleSessions emptyStore emptyStore ("dc") sampleSession
    10000 none none PollRemote.pending (by decide) rfl
  exact ⟨h.1, h.2.2.1⟩

/-- C7: a per-file upload that reaches transcode polling and whose status never
reports completion with an asset key performs exactly 30 status polls, each
after a 2000 ms wait, and fails with the transcode-timeout error; for every
environment whatsoever the loop performs at most 30 polls. -/
theorem C7_transcode_poll_bounded (env : UploadEnv)
    (hok : env.slot.ok = true)
    (hid : truthyStr (env.slot.upload.bind SlotUpload.uploadId) = true)
    (hs3 : truthyStr (env.slot.upload.bind SlotUpload.uploadUrl) = true → env.s3Ok = true)
    (hnever : ∀ a, pollSuccess (env.statuses a) = false) :
    (uploadAudioToYoto env).result = Except.error UploadError.transcodeTimeout ∧
    countAct Act.statusPoll (uploadAudioToYoto env).acts = 30 ∧
    countAct (Act.sleep 2000) (uploadAudioToYoto env).acts = 30 ∧
    (∀ env2 : UploadEnv, countAct Act.statusPoll (uploadAudioToYoto env2).acts ≤ 30) := by
  obtain ⟨hkey, hc1, hc2⟩ := pollLoop_never env hnever 30 0
  have main : (uploadAudioToYoto env).result = Except.error UploadError.transcodeTimeout ∧
      countAct Act.statusPoll (uploadAudioToYoto env).acts = 30 ∧
      countAct (Act.sleep 2000) (uploadAudioToYoto env).acts = 30 := by
    unfold uploadAudioToYoto
    rcases Bool.eq_false_or_eq_true
        (truthyStr (env.slot.upload.bind SlotUpload.uploadUrl)) with hurl | hurl
    · have h3 := hs3 hurl
      refine ⟨?_, ?_, ?_⟩ <;>
        simp [hok, hid, hurl, h3, runTranscodePoll_acts, runTranscodePoll_result, hkey,
          countAct_append, countAct, hc1, hc2]
    · refine ⟨?_, ?_, ?_⟩ <;>
        simp [hok, hid, hurl, runTranscodePoll_acts, runTranscodePoll_result, hkey,
          countAct_append, countAct, hc1, hc2]
  exact ⟨main.1, main.2.1, main.2.2, fun env2 => upload_statusPoll_le env2⟩

/-- C7 witness: an environment whose status endpoint never completes times out
after exactly 30 polls. -/
theorem C7_transcode_poll_bounded_witness :
    (uploadAudioToYoto neverDoneEnv).result = Except.error UploadError.transcodeTimeout ∧
    countAct Act.statusPoll (uploadAudioToYoto neverDoneEnv).acts = 30 := by
  have h := C7_transcode_poll_bounded neverDoneEnv rfl rfl (fun _ => rfl) (fun _ => rfl)
  exact ⟨h.1, h.2.1⟩

/-- C2: when every track's upload fails, the run terminates with the aggregate
error event listing one failure per track (in playlist order, by title), the
manifest POST to the remote content endpoint is never issued, and no manifest
exists. -/
theorem C2_all_uploads_fail (env : PublishEnv) (creds : Credentials) (playlist : Playlist)
    (hc : env.creds = some creds) (hp : env.playlist = some playlist)
    (hd : ∀ s ∈ env.songs, truthyStr s.filePath = true ∧ s.fileOnDisk = true)
    (hf : ∀ j, j < env.songs.length →
      ∃ e, (uploadAudioToYoto (env.uploads j)).result = Except.error e) :
    (∃ errs, (publishStream env).events.getLast?
        = some (Event.errorEv ("All uploads failed") none (some errs)) ∧
      errs.map TrackError.title = env.songs.map Song.title) ∧
    Act.manifestSubmit ∉ (publishStream env).acts ∧
    (publishStream env).manifest = none := by
  have hfilter := filter_notDownloaded_nil env.songs hd
  have hloop := uploadLoop_allFail env.uploads env.songs.length env.songs 0 (by
    intro j hj
    simpa using hf j hj)
  have hred : publishStream env =
      ⟨(uploadLoop env.uploads env.songs.length env.songs 0).events
         ++ [Event.errorEv ("All uploads failed") none
              (some (uploadLoop env.uploads env.songs.length env.songs 0).errors)],
       (uploadLoop env.uploads env.songs.length env.songs 0).acts,
       (uploadLoop env.uploads env.songs.length env.songs 0).tracks, none, none, true⟩ := by
    simp [publishStream, hc, hp, hfilter, hloop.1]
  refine ⟨⟨(uploadLoop env.uploads env.songs.length env.songs 0).errors, ?_, hloop.2⟩, ?_, ?_⟩
  · rw [hred]
    exact List.getLast?_concat _
  · rw [hred]
    exact uploadLoop_no_submit env.uploads env.songs.length env.songs 0
  · rw [hred]

/-- C2 witness: a 2-track run where both slot requests fail yields the
aggregate terminal error, both failures listed, and no manifest submission. -/
theorem C2_all_uploads_fail_witness :
    (∃ errs, (publishStream allFailEnv).events.getLast?
        = some (Event.errorEv ("All uploads failed") none (some errs)) ∧
      errs.map TrackError.title = allFailEnv.songs.map Song.title) ∧
    Act.manifestSubmit ∉ (publishStream allFailEnv).acts ∧
    (publishStream allFailEnv).manifest = none :=
  C2_all_uploads_fail allFailEnv sampleCreds samplePlaylist rfl rfl (by decide)
    (fun _ _ => ⟨UploadError.uploadUrlFailed 500 ("boom"), rfl⟩)

/-- C1: on a 3-track playlist where track 2's upload pipeline fails and tracks
1 and 3 succeed (and the manifest POST succeeds), the submitted manifest has
exactly 2 chapters, for tracks 1 and 3 in their original relative order
(titles and asset keys), and the terminal `done` event carries an errors list
of length 1 (track 2's failure). -/
theorem C1_mid_track_failure (creds : Credentials) (playlist : Playlist) (s1 s2 s3 : Song)
    (uploads : Nat → UploadEnv) (persist : PersistResponse) (k1 k3 : String) (e : UploadError)
    (hd : ∀ s ∈ [s1, s2, s3], truthyStr s.filePath = true ∧ s.fileOnDisk = true)
    (h0 : (uploadAudioToYoto (uploads 0)).result = Except.ok k1)
    (h1 : (uploadAudioToYoto (uploads 1)).result = Except.error e)
    (h2 : (uploadAudioToYoto (uploads 2)).result = Except.ok k3)
    (hok : persist.ok = true) :
    ∃ m, (publishStream ⟨some creds, some playlist, [s1, s2, s3], uploads, persist⟩).manifest
        = some m ∧
      m.chapters.length = 2 ∧
      m.chapters.map Chapter.title = [s1.title, s3.title] ∧
      (m.chapters.map fun c => c.tracks.map ChapterTrack.trackUrl)
          = [["yoto:#" ++ k1], ["yoto:#" ++ k3]] ∧
      (publishStream ⟨some creds, some playlist, [s1, s2, s3], uploads, persist⟩).events.getLast?
          = some (Event.doneEv 2 (some [⟨s2.title, e.message⟩])) := by
  have hfilter := filter_notDownloaded_nil [s1, s2, s3] hd
  have htr : (uploadLoop uploads 3 [s1, s2, s3] 0).tracks
      = [⟨s1.title, 1, k1, s1.duration, "mp3"⟩, ⟨s3.title, 3, k3, s3.duration, "mp3"⟩] := by
    simp [uploadLoop, h0, h1, h2]
  have herr : (uploadLoop uploads 3 [s1, s2, s3] 0).errors = [⟨s2.title, e.message⟩] := by
    simp [uploadLoop, h0, h1, h2]
  refine ⟨buildManifest playlist creds.userId
      [⟨s1.title, 1, k1, s1.duration, "mp3"⟩, ⟨s3.title, 3, k3, s3.duration, "mp3"⟩],
    ?_, ?_, ?_, ?_, ?_⟩
  · simp [publishStream, hfilter, htr, hok]
  · simp [buildManifest, mkChapter, List.enum, List.enumFrom]
  · simp [buildManifest, mkChapter, List.enum, List.enumFrom]
  · simp [buildManifest, mkChapter, List.enum, List.enumFrom]
  · simp only [publishStream, hfilter, htr, herr, hok]
    rcases Bool.eq_false_or_eq_true (truthyStr persist.cardId
        && (persist.cardId != playlist.yotoCardId)) with hds | hds <;>
      simp [hds, maybeErrors, htr, herr, List.getLast?_concat]

/-- C1 witness: the concrete 3-track run with track 2 failing. -/
theorem C1_mid_track_failure_witness :
    ∃ m, (publishStream midFailEnv).manifest = some m ∧
      m.chapters.length = 2 ∧
      m.chapters.map Chapter.title = ["A", "C"] ∧
      (m.chapters.map fun c => c.tracks.map ChapterTrack.trackUrl)
          = [["yoto:#" ++ "k0"], ["yoto:#" ++ "k2"]] ∧
      (publishStream midFailEnv).events.getLast?
          = some (Event.doneEv 2
              (some [⟨"B", (UploadError.uploadUrlFailed 500 ("boom")).message⟩])) :=
  C1_mid_track_failure sampleCreds samplePlaylist (sampleSong ("A")) (sampleSong ("B"))
    (sampleSong ("C")) midFailUploads samplePersist ("k0") ("k2")
    (UploadError.uploadUrlFailed 500 ("boom")) (by decide) rfl rfl rfl rfl

lemma publishStream_tracks (env : PublishEnv) :
    (publishStream env).tracks = [] ∨
    (publishStream env).tracks
        = (uploadLoop env.uploads env.songs.length env.songs 0).tracks := by
  cases hcv : env.creds with
  | none => exact Or.inl (by simp [publishStream, hcv])
  | some creds =>
    cases hpv : env.playlist with
    | none => exact Or.inl (by simp [publishStream, hcv, hpv])
    | some playlist =>
      by_cases hnd :
          (env.songs.filter fun s => !truthyStr s.filePath || !s.fileOnDisk).length > 0
      · exact Or.inl (by simp [publishStream, hcv, hpv, hnd])
      · by_cases ht0 : (uploadLoop env.uploads env.songs.length env.songs 0).tracks.length = 0
        · exact Or.inr (by simp [publishStream, hcv, hpv, hnd, ht0])
        · rcases Bool.eq_false_or_eq_true env.persist.ok with hpo | hpo
          · exact Or.inr (by simp [publishStream, hcv, hpv, hnd, ht0, hpo])
          · exact Or.inr (by simp [publishStream, hcv, hpv, hnd, ht0, hpo])

lemma publishStream_tracks_loop (env : PublishEnv) (creds : Credentials) (playlist : Playlist)
    (hc : env.creds = some creds) (hp : env.playlist = some playlist)
    (hfilter : (env.songs.filter fun s => !truthyStr s.filePath || !s.fileOnDisk) = []) :
    (publishStream env).tracks
        = (uploadLoop env.uploads env.songs.length env.songs 0).tracks := by
  simp only [publishStream, hc, hp, hfilter]
  simp only [List.length_nil, gt_iff_lt, Nat.lt_irrefl, if_false]
  split
  · rfl
  · split
    · rfl
    · rfl

/-- C3 counterexample: in the 3-track run where track 2 fails, a manifest is
submitted whose trackNumber sequence is `[1, 3]` — 1-based but not contiguous
(the contiguous sequence for its 2 chapters would be `[1, 2]`). -/
theorem C3_counterexample :
    (publishStream midFailEnv).manifest.isSome = true ∧
    (publishStream midFailEnv).trackNumbers = [1, 3] ∧
    (publishStream midFailEnv).trackNumbers
        ≠ List.range' 1 (publishStream midFailEnv).tracks.length := by
  refine ⟨rfl, rfl, by decide⟩

/-- C3 amended: the trackNumber values of a submitted manifest, in manifest
order, are strictly increasing 1-based original playlist positions (each
between 1 and the playlist length); when a mid-list upload fails its position
is skipped, so the sequence equals the contiguous `1, 2, ..., n` exactly in
runs where every track's upload succeeds. -/
theorem C3_track_numbers (env : PublishEnv) :
    List.Chain' (· < ·) (publishStream env).trackNumbers ∧
    (∀ n ∈ (publishStream env).trackNumbers, 1 ≤ n ∧ n ≤ env.songs.length) ∧
    ((env.creds ≠ none ∧ env.playlist ≠ none ∧
      (∀ s ∈ env.songs, truthyStr s.filePath = true ∧ s.fileOnDisk = true) ∧
      (∀ j, j < env.songs.length →
        ∃ k, (uploadAudioToYoto (env.uploads j)).result = Except.ok k)) →
      (publishStream env).trackNumbers = List.range' 1 env.songs.length) := by
  obtain ⟨hchain, hbound⟩ := uploadLoop_trackNumbers env.uploads env.songs.length env.songs 0
  refine ⟨?_, ?_, ?_⟩
  · rcases publishStream_tracks env with hts | hts <;>
      simp [PublishResult.trackNumbers, hts, hchain]
  · intro n hn
    rcases publishStream_tracks env with hts | hts
    · simp [PublishResult.trackNumbers, hts] at hn
    · rw [PublishResult.trackNumbers, hts] at hn
      have hb := hbound n hn
      omega
  · rintro ⟨hcne, hpne, hd, hall⟩
    cases hcv : env.creds with
    | none => exact absurd hcv hcne
    | some creds =>
      cases hpv : env.playlist with
      | none => exact absurd hpv hpne
      | some playlist =>
        have hfilter := filter_notDownloaded_nil env.songs hd
        rw [PublishResult.trackNumbers,
          publishStream_tracks_loop env creds playlist hcv hpv hfilter]
        have hmap := uploadLoop_all_ok env.uploads env.songs.length env.songs 0 (by
          intro j hj
          simpa using hall j hj)
        simpa using hmap

/-- C3 amended witness: a 3-track all-success run yields trackNumbers 1, 2, 3. -/
theorem C3_track_numbers_witness :
    (publishStream allOkEnv).trackNumbers = List.range' 1 3 := by
  have hall : ∀ j, j < allOkEnv.songs.length →
      ∃ k, (uploadAudioToYoto (allOkEnv.uploads j)).result = Except.ok k := by
    intro j hj
    have hj3 : j < 3 := hj
    interval_cases j
    · exact ⟨"k0", rfl⟩
    · exact ⟨"k1", rfl⟩
    · exact ⟨"k2", rfl⟩
  exact (C3_track_numbers allOkEnv).2.2 ⟨by decide, by decide, by decide, hall⟩

/-- C5: when a track's slot response carries a truthy uploadId but no transfer
URL (content already held by hash) and polling eventually reports completion,
the pipeline performs no byte-transfer PUT, goes straight to status polling,
succeeds, and the publish run emits the `upload-complete` event for that
track. -/
theorem C5_dedup_skips_transfer (env : PublishEnv) (creds : Credentials) (playlist : Playlist)
    (i : Nat) (k : String) (hi : i < env.songs.length)
    (hc : env.creds = some creds) (hp : env.playlist = some playlist)
    (hd : ∀ s ∈ env.songs, truthyStr s.filePath = true ∧ s.fileOnDisk = true)
    (hok : (env.uploads i).slot.ok = true)
    (hid : truthyStr ((env.uploads i).slot.upload.bind SlotUpload.uploadId) = true)
    (hurl : truthyStr ((env.uploads i).slot.upload.bind SlotUpload.uploadUrl) = false)
    (hkey : (pollLoop (env.uploads i) 0 30).key = some k) :
    Act.bytePut ∉ (uploadAudioToYoto (env.uploads i)).acts ∧
    Act.statusPoll ∈ (uploadAudioToYoto (env.uploads i)).acts ∧
    (uploadAudioToYoto (env.uploads i)).result = Except.ok k ∧
    Event.uploadComplete (i + 1) env.songs.length (env.songs.get ⟨i, hi⟩).title
      ∈ (publishStream env).events := by
  have hacts : (uploadAudioToYoto (env.uploads i)).acts
      = [Act.slotRequest] ++ (pollLoop (env.uploads i) 0 30).acts := by
    unfold uploadAudioToYoto
    simp [hok, hid, hurl, runTranscodePoll_acts]
  have hres : (uploadAudioToYoto (env.uploads i)).result = Except.ok k := by
    unfold uploadAudioToYoto
    simp [hok, hid, hurl, runTranscodePoll_result, hkey]
  have hfilter := filter_notDownloaded_nil env.songs hd
  have hmem : Event.uploadComplete (i + 1) env.songs.length (env.songs.get ⟨i, hi⟩).title
      ∈ (uploadLoop env.uploads env.songs.length env.songs 0).events := by
    have hm := uploadLoop_complete_mem env.uploads env.songs.length env.songs 0 i hi k
      (by simpa using hres)
    simpa using hm
  refine ⟨?_, ?_, hres, ?_⟩
  · rw [hacts]
    simp [pollLoop_no_bytePut (env.uploads i) 30 0]
  · rw [hacts]
    simp [pollLoop_statusPoll_mem (env.uploads i) 30 0 (by omega)]
  · by_cases ht0 : (uploadLoop env.uploads env.songs.length env.songs 0).tracks.length = 0
    · simp [publishStream, hc, hp, hfilter, ht0, List.mem_append]
      simpa using hmem
    · rcases Bool.eq_false_or_eq_true env.persist.ok with hpo | hpo <;>
        · simp [publishStream, hc, hp, hfilter, ht0, hpo, List.mem_append]
          simpa using hmem

/-- C5 witness: the concrete 1-track dedup run skips the PUT and still emits
`upload-complete`. -/
theorem C5_dedup_skips_transfer_witness :
    Act.bytePut ∉ (uploadAudioToYoto (dedupUploadEnv ("kA"))).acts ∧
    Act.statusPoll ∈ (uploadAudioToYoto (dedupUploadEnv ("kA"))).acts ∧
    (uploadAudioToYoto (dedupUploadEnv ("kA"))).result = Except.ok ("kA") ∧
    Event.uploadComplete 1 1 ("A") ∈ (publishStream dedupPublishEnv).events := by
  have h := C5_dedup_skips_transfer dedupPublishEnv sampleCreds samplePlaylist 0 ("kA")
    (by decide) rfl rfl (by decide) rfl rfl rfl rfl
  exact h

/-- C4: every publish run writes zero or more non-terminal events
(`upload-start`/`log`/`upload-complete`/`upload-error`) followed by exactly one
terminal `done` or `error` event, after which the channel is closed. -/
theorem C4_terminal_event_protocol (env : PublishEnv) :
    ∃ pre t, (publishStream env).events = pre ++ [t] ∧ Event.isTerminal t = true ∧
      (∀ e ∈ pre, Event.isTerminal e = false) ∧ (publishStream env).ended = true := by
  have hnt : ∀ e ∈ (uploadLoop env.uploads env.songs.length env.songs 0).events,
      Event.isTerminal e = false :=
    fun e he => uploadLoop_events_nonterminal env.uploads env.songs.length env.songs 0 e he
  cases hcv : env.creds with
  | none =>
    refine ⟨[], Event.errorEv ("Yoto not connected. Please login first.") none none,
      ?_, rfl, by simp, ?_⟩ <;> simp [publishStream, hcv]
  | some creds =>
    cases hpv : env.playlist with
    | none =>
      refine ⟨[], Event.errorEv ("Playlist not found") none none,
        ?_, rfl, by simp, ?_⟩ <;> simp [publishStream, hcv, hpv]
    | some playlist =>
      by_cases hnd :
          (env.songs.filter fun s => !truthyStr s.filePath || !s.fileOnDisk).length > 0
      · refine ⟨[], Event.errorEv ("Some songs not downloaded")
          (some ((env.songs.filter fun s => !truthyStr s.filePath || !s.fileOnDisk).map
            Song.title)) none, ?_, rfl, by simp, ?_⟩ <;> simp [publishStream, hcv, hpv, hnd]
      · by_cases ht0 : (uploadLoop env.uploads env.songs.length env.songs 0).tracks.length = 0
        · refine ⟨(uploadLoop env.uploads env.songs.length env.songs 0).events,
            Event.errorEv ("All uploads failed") none
              (some (uploadLoop env.uploads env.songs.length env.songs 0).errors),
            ?_, rfl, fun e he => hnt e he, ?_⟩ <;> simp [publishStream, hcv, hpv, hnd, ht0]
        · rcases Bool.eq_false_or_eq_true env.persist.ok with hpo | hpo
          · rcases Bool.eq_false_or_eq_true (truthyStr env.persist.cardId
                && (env.persist.cardId != playlist.yotoCardId)) with hds | hds
            · refine ⟨((uploadLoop env.uploads env.songs.length env.songs 0).events ++
                  [Event.logEv (if truthyStr playlist.yotoCardId then ("Updating Yoto card...")
                    else ("Creating Yoto card...")), Event.logEv ("Sending: ...")]) ++
                  [Event.logEv ("Saved card ID: " ++ env.persist.cardId.getD "")],
                Event.doneEv (uploadLoop env.uploads env.songs.length env.songs 0).tracks.length
                  (maybeErrors (uploadLoop env.uploads env.songs.length env.songs 0).errors),
                ?_, rfl, ?_, ?_⟩
              · simp [publishStream, hcv, hpv, hnd, ht0, hpo, hds]
              · intro e he
                simp only [List.mem_append, List.mem_cons, List.not_mem_nil, or_false] at he
                rcases he with (he | he | he) | he
                · exact hnt e he
                · rw [he]; rfl
                · rw [he]; rfl
                · rw [he]; rfl
              · simp [publishStream, hcv, hpv, hnd, ht0, hpo, hds]
            · refine ⟨((uploadLoop env.uploads env.songs.length env.songs 0).events ++
                  [Event.logEv (if truthyStr playlist.yotoCardId then ("Updating Yoto card...")
                    else ("Creating Yoto card...")), Event.logEv ("Sending: ...")]) ++ [],
                Event.doneEv (uploadLoop env.uploads env.songs.length env.songs 0).tracks.length
                  (maybeErrors (uploadLoop env.uploads env.songs.length env.songs 0).errors),
                ?_, rfl, ?_, ?_⟩
              · simp [publishStream, hcv, hpv, hnd, ht0, hpo, hds]
              · intro e he
                simp only [List.append_nil, List.mem_append, List.mem_cons, List.not_mem_nil,
                  or_false] at he
                rcases he with he | he | he
                · exact hnt e he
                · rw [he]; rfl
                · rw [he]; rfl
              · simp [publishStream, hcv, hpv, hnd, ht0, hpo, hds]
          · refine ⟨((uploadLoop env.uploads env.songs.length env.songs 0).events ++
                [Event.logEv (if truthyStr playlist.yotoCardId then ("Updating Yoto card...")
                  else ("Creating Yoto card...")), Event.logEv ("Sending: ...")]) ++
                [Event.logEv ("Error response: " ++ env.persist.body)],
              Event.errorEv ("Failed to create card: " ++ toString env.persist.status ++ " - "
                ++ env.persist.body) none none, ?_, rfl, ?_, ?_⟩
            · simp [publishStream, hcv, hpv, hnd, ht0, hpo, List.append_assoc]
            · intro e he
              simp only [List.mem_append, List.mem_cons, List.not_mem_nil, or_false] at he
              rcases he with (he | he | he) | he
              · exact hnt e he
              · rw [he]; rfl
              · rw [he]; rfl
              · rw [he]; rfl
            · simp [publishStream, hcv, hpv, hnd, ht0, hpo]

end Yoto
